import Mathlib

/-!
Verification of the reference-counted handle layer of the libudev wrapper
(file src/context.rs).  The external Device Subsystem (libudev) is modelled
as an instrumented fake that counts the FFI calls issued by the wrapper and
tracks the reference count of the single session under test, as the spec
prescribes for testing.  Raw C pointers are modelled as natural numbers with
0 playing the role of the null pointer.
-/

/-- Raw C pointer, with 0 as the null pointer. -/
abbrev RawPtr := Nat

/-- Instrumented state of the external Device Subsystem: counters for the
three FFI primitives issued by the wrapper layer, the reference count of the
session under test, and how many times the underlying resource was freed. -/
structure FfiState where
  newCalls : Nat := 0
  incCalls : Nat := 0
  decCalls : Nat := 0
  refcount : Nat := 0
  released : Nat := 0
  deriving Repr, DecidableEq

/-- The session-creation primitive of the subsystem (udev_new).  The fake is
configured with the pointer it returns; a non-null result denotes a fresh
session whose external refcount starts at 1. -/
def udev_new (result : RawPtr) (s : FfiState) : FfiState × RawPtr :=
  if result = 0 then ({ s with newCalls := s.newCalls + 1 }, 0)
  else ({ s with newCalls := s.newCalls + 1, refcount := 1 }, result)

/-- The increment-reference primitive of the subsystem (udev_ref): bumps the
refcount and returns the same handle. -/
def udev_ref (h : RawPtr) (s : FfiState) : FfiState × RawPtr :=
  ({ s with incCalls := s.incCalls + 1, refcount := s.refcount + 1 }, h)

/-- The decrement-reference primitive of the subsystem (udev_unref): drops
the refcount and frees the session when it reaches zero; returns null. -/
def udev_unref (h : RawPtr) (s : FfiState) : FfiState × RawPtr :=
  ({ s with decCalls := s.decCalls + 1,
            refcount := s.refcount - 1,
            released := if s.refcount = 1 then s.released + 1 else s.released }, 0)

/-- The struct Context of context.rs: one field udev holding a
NonNull pointer to the session.  The NonNull wrapper is embedded as the raw
pointer value; the non-nullness invariant is proved separately (claim C9). -/
structure Context where
  udev : RawPtr
  deriving Repr, DecidableEq

/-- Modelled from the spec: the error type behind the Result alias of the
crate is outside src/; per the spec the only error kind of this layer is
AllocationError. -/
inductive Error where
  | AllocationError
  deriving Repr, DecidableEq

/-- Modelled from the spec: the try_alloc macro of the crate is outside
src/; per the spec it maps a null subsystem result to AllocationError and
passes a non-null result through. -/
def try_alloc (p : RawPtr) : Except Error RawPtr :=
  if p = 0 then Except.error Error.AllocationError else Except.ok p

/-- Context::new (context.rs lines 52 to 61): calls udev_new once, applies
try_alloc to the result, and wraps the surviving non-null pointer with
NonNull.new_unchecked (embedded as the identity on the raw value). -/
def Context.new (result : RawPtr) (s : FfiState) :
    FfiState × Except Error Context :=
  let r := udev_new result s
  (r.1, (try_alloc r.2).map fun p => { udev := p })

/-- The Clone impl for Context (context.rs lines 26 to 34): calls udev_ref
on the stored pointer and wraps the returned pointer with
NonNull.new_unchecked. -/
def Context.clone (c : Context) (s : FfiState) : FfiState × Context :=
  let r := udev_ref c.udev s
  (r.1, { udev := r.2 })

/-- The Drop impl for Context (context.rs lines 36 to 43): calls udev_unref
on the stored pointer. -/
def Context.drop (c : Context) (s : FfiState) : FfiState :=
  (udev_unref c.udev s).1

/-- The Handle impl for Context (context.rs lines 46 to 50): as_ptr returns
the stored pointer.  The body makes no FFI call, so in the state-passing
embedding the subsystem state is returned unchanged. -/
def Context.as_ptr (c : Context) (s : FfiState) : FfiState × RawPtr :=
  (s, c.udev)

/-- Lifecycle operations on the set of live owning values descended from one
construction: duplicate owner number i, or destroy owner number i.  Indices
refer to positions in the list of live owners. -/
inductive Op where
  | clone (i : Nat)
  | drop (i : Nat)
  deriving Repr, DecidableEq

/-- Execution state of a lifecycle trace: the instrumented subsystem state
together with the list of live owning Context values. -/
structure ExecState where
  ffi : FfiState
  live : List Context
  deriving Repr, DecidableEq

/-- One lifecycle step.  An index that does not denote a live owner leaves
the state unchanged. -/
def step (st : ExecState) : Op → ExecState
  | Op.clone i =>
    match st.live[i]? with
    | none => st
    | some c =>
      let r := Context.clone c st.ffi
      { ffi := r.1, live := st.live ++ [r.2] }
  | Op.drop i =>
    match st.live[i]? with
    | none => st
    | some c => { ffi := Context.drop c st.ffi, live := st.live.eraseIdx i }

/-- Run a list of lifecycle operations. -/
def run (st : ExecState) : List Op → ExecState
  | [] => st
  | op :: ops => run (step st op) ops

/-- Execution state directly after one successful construction against a
fresh instrumented subsystem returning the non-null pointer h. -/
def initState (h : RawPtr) : ExecState :=
  { ffi := { newCalls := 1, refcount := 1 }, live := [{ udev := h }] }

/-- Invariant tying the instrumented counters to the list of live owners:
the external refcount equals the number of live owners, completed decrements
plus live owners equal completed construction plus increments, the resource
is released exactly once and only when no owner remains, and every live
owner stores the original non-null handle. -/
def LiveInv (h : RawPtr) (st : ExecState) : Prop :=
  st.ffi.refcount = st.live.length ∧
  st.ffi.decCalls + st.live.length = 1 + st.ffi.incCalls ∧
  st.ffi.released = (if st.live.length = 0 then 1 else 0) ∧
  st.ffi.newCalls = 1 ∧
  ∀ c ∈ st.live, c.udev = h

theorem inv_initState (h : RawPtr) : LiveInv h (initState h) := by
  refine ⟨rfl, rfl, rfl, rfl, ?_⟩
  intro c hc
  simp [initState] at hc
  simp [hc]

theorem inv_step (h : RawPtr) (st : ExecState) (op : Op)
    (hinv : LiveInv h st) : LiveInv h (step st op) := by
  obtain ⟨hrc, hcount, hrel, hnew, hmem⟩ := hinv
  cases op with
  | clone i =>
    cases hgi : st.live[i]? with
    | none => simpa [step, hgi] using ⟨hrc, hcount, hrel, hnew, hmem⟩
    | some c =>
      obtain ⟨hlt, -⟩ := List.getElem?_eq_some_iff.mp hgi
      have hne : st.live.length ≠ 0 := by omega
      refine ⟨?_, ?_, ?_, ?_, ?_⟩
      · simp [step, hgi, Context.clone, udev_ref]
        omega
      · simp [step, hgi, Context.clone, udev_ref]
        omega
      · simp [step, hgi, Context.clone, udev_ref]
        rw [hrel]
        simp [hne]
      · simpa [step, hgi, Context.clone, udev_ref] using hnew
      · intro d hd
        simp [step, hgi, Context.clone, udev_ref] at hd
        rcases hd with hd | hd
        · exact hmem d hd
        · rw [hd]
          exact hmem c (List.getElem?_mem hgi)
  | drop i =>
    cases hgi : st.live[i]? with
    | none => simpa [step, hgi] using ⟨hrc, hcount, hrel, hnew, hmem⟩
    | some c =>
      obtain ⟨hlt, -⟩ := List.getElem?_eq_some_iff.mp hgi
      have herase : (st.live.eraseIdx i).length = st.live.length - 1 :=
        List.length_eraseIdx_of_lt hlt
      refine ⟨?_, ?_, ?_, ?_, ?_⟩
      · simp [step, hgi, Context.drop, udev_unref, herase]
        omega
      · simp [step, hgi, Context.drop, udev_unref, herase]
        omega
      · simp [step, hgi, Context.drop, udev_unref, herase]
        by_cases h1 : st.live.length = 1
        · have hrcv : st.ffi.refcount = 1 := by omega
          have hr0 : st.ffi.released = 0 := by rw [hrel]; simp [h1]
          simp [hrcv, hr0, h1]
        · have hne : st.live.length ≠ 0 := by omega
          have hne1 : st.live.length - 1 ≠ 0 := by omega
          have hrcv : st.ffi.refcount ≠ 1 := by omega
          have hr0 : st.ffi.released = 0 := by rw [hrel]; simp [hne]
          simp [hrcv, hr0, hne1]
      · simpa [step, hgi, Context.drop, udev_unref] using hnew
      · intro d hd
        simp [step, hgi] at hd
        exact hmem d (List.mem_of_mem_eraseIdx hd)

theorem inv_run (h : RawPtr) (st : ExecState) (ops : List Op)
    (hinv : LiveInv h st) : LiveInv h (run st ops) := by
  induction ops generalizing st with
  | nil => simpa [run] using hinv
  | cons op ops ih => exact ih (step st op) (inv_step h st op hinv)

/-- Claim C3: for every live Context, clone performs exactly one
increment-reference call (and no other FFI call) on the underlying handle
and returns a new owning value holding the same raw handle. -/
theorem context_clone_duplicate_semantics (c : Context) (s : FfiState) :
    (Context.clone c s).1.incCalls = s.incCalls + 1 ∧
    (Context.clone c s).1.decCalls = s.decCalls ∧
    (Context.clone c s).1.newCalls = s.newCalls ∧
    ((Context.clone c s).2).udev = c.udev := by
  refine ⟨rfl, rfl, rfl, rfl⟩

/-- Claim C4: destruction of one owning Context value performs exactly one
decrement-reference call, never zero and never two, and no other FFI call;
in the lifecycle trace model, the one destruction event an owner receives
removes exactly that owner and issues exactly one decrement. -/
theorem context_drop_destroy_semantics (c : Context) (s : FfiState) :
    ((Context.drop c s).decCalls = s.decCalls + 1 ∧
     (Context.drop c s).incCalls = s.incCalls ∧
     (Context.drop c s).newCalls = s.newCalls) ∧
    ∀ (st : ExecState) (i : Nat), st.live[i]? = some c →
      (step st (Op.drop i)).ffi.decCalls = st.ffi.decCalls + 1 ∧
      (step st (Op.drop i)).live.length = st.live.length - 1 := by
  refine ⟨⟨rfl, rfl, rfl⟩, ?_⟩
  intro st i hgi
  obtain ⟨hlt, -⟩ := List.getElem?_eq_some_iff.mp hgi
  constructor
  · simp [step, hgi, Context.drop, udev_unref]
  · simp [step, hgi, List.length_eraseIdx_of_lt hlt]

/-- Claim C4 witness: the two hypothesised parts hold at a concrete owner,
state and trace position. -/
theorem context_drop_destroy_semantics_witness :
    (step { ffi := {}, live := [{ udev := 5 }] } (Op.drop 0)).ffi.decCalls
        = (0 : Nat) + 1 ∧
    (step { ffi := {}, live := [{ udev := 5 }] } (Op.drop 0)).live.length
        = 1 - 1 :=
  (context_drop_destroy_semantics { udev := 5 } {}).2
    { ffi := {}, live := [{ udev := 5 }] } 0 rfl

/-- Claim C7: raw_handle (as_ptr) is purely observational: it leaves the
subsystem state untouched (no FFI call, no refcount change) and returns, on
every call and in every state, the very handle the value stores. -/
theorem context_as_ptr_pure_stable (c : Context) (s t : FfiState) :
    (Context.as_ptr c s).1 = s ∧
    (Context.as_ptr c s).2 = c.udev ∧
    (Context.as_ptr c s).2 = (Context.as_ptr c t).2 ∧
    (Context.as_ptr c s).1.incCalls = s.incCalls ∧
    (Context.as_ptr c s).1.decCalls = s.decCalls ∧
    (Context.as_ptr c s).1.refcount = s.refcount := by
  refine ⟨rfl, rfl, rfl, rfl, rfl, rfl⟩

/-- Claim C2: Context.new calls the session-creation primitive exactly once
and issues no increment and no decrement; a null subsystem result is mapped
to AllocationError with no Context produced, and a non-null result is
wrapped in Ok with a Context owning exactly that handle. -/
theorem context_new_error_mapping (r : RawPtr) (s : FfiState) :
    (Context.new r s).1.newCalls = s.newCalls + 1 ∧
    (Context.new r s).1.incCalls = s.incCalls ∧
    (Context.new r s).1.decCalls = s.decCalls ∧
    (r = 0 → (Context.new r s).2 = Except.error Error.AllocationError) ∧
    (r ≠ 0 → (Context.new r s).2 = Except.ok { udev := r }) := by
  by_cases hr : r = 0 <;>
    simp [Context.new, udev_new, try_alloc, hr, Except.map]

/-- Claim C2 witness: the two implications evaluated at a concrete null and
a concrete non-null configured subsystem result. -/
theorem context_new_error_mapping_witness :
    (Context.new 0 {}).2 = Except.error Error.AllocationError ∧
    (Context.new 7 {}).2 = Except.ok { udev := 7 } :=
  ⟨(context_new_error_mapping 0 {}).2.2.2.1 rfl,
   (context_new_error_mapping 7 {}).2.2.2.2 (by decide)⟩

/-- Claim C5: refcount conservation.  After every sequence of duplicate and
destroy operations descending from one successful construction, completed
destroys never exceed completed construction plus duplicates, construction
plus duplicates equal completed destroys plus the number of live owners (so
outstanding increments equal live owners), and the resource has been
released exactly once when the counts are equal and not at all before. -/
theorem refcount_conservation (h : RawPtr) (ops : List Op) (hh : h ≠ 0) :
    (run (initState h) ops).ffi.decCalls ≤
      (run (initState h) ops).ffi.newCalls +
        (run (initState h) ops).ffi.incCalls ∧
    (run (initState h) ops).ffi.newCalls + (run (initState h) ops).ffi.incCalls
      = (run (initState h) ops).ffi.decCalls +
          (run (initState h) ops).live.length ∧
    ((run (initState h) ops).ffi.decCalls =
        (run (initState h) ops).ffi.newCalls +
          (run (initState h) ops).ffi.incCalls →
      (run (initState h) ops).ffi.released = 1) ∧
    ((run (initState h) ops).ffi.decCalls <
        (run (initState h) ops).ffi.newCalls +
          (run (initState h) ops).ffi.incCalls →
      (run (initState h) ops).ffi.released = 0) := by
  obtain ⟨hrc, hcount, hrel, hnew, hmem⟩ :=
    inv_run h (initState h) ops (inv_initState h)
  refine ⟨by omega, by omega, ?_, ?_⟩
  · intro he
    have hlen0 : (run (initState h) ops).live.length = 0 := by omega
    rw [hrel, if_pos hlen0]
  · intro hlt
    have hlen0 : (run (initState h) ops).live.length ≠ 0 := by omega
    rw [hrel, if_neg hlen0]

/-- Claim C5 witness: after construct, clone, drop, drop on a concrete
handle the counts meet and the resource has been released exactly once. -/
theorem refcount_conservation_witness :
    (run (initState 3) [Op.clone 0, Op.drop 0, Op.drop 0]).ffi.released = 1 :=
  (refcount_conservation 3 [Op.clone 0, Op.drop 0, Op.drop 0]
    (by decide)).2.2.1 (by decide)

/-- Claim C6: clone independence.  From a successful construction yielding
owner a and clone b sharing the same handle, dropping a leaves the raw
handle of b readable and equal to the shared handle and does not release the
resource; dropping the remaining owner afterwards releases it exactly once,
and the same holds with the two drops in the other order. -/
theorem clone_independence (h : RawPtr) (s : FfiState) (hh : h ≠ 0) :
    (Context.new h s).2 = Except.ok { udev := h } ∧
    (Context.clone { udev := h } (Context.new h s).1).2.udev = h ∧
    (Context.as_ptr (Context.clone { udev := h } (Context.new h s).1).2
      (Context.drop { udev := h }
        (Context.clone { udev := h } (Context.new h s).1).1)).2 = h ∧
    (Context.drop { udev := h }
      (Context.clone { udev := h } (Context.new h s).1).1).released
        = s.released ∧
    (Context.drop (Context.clone { udev := h } (Context.new h s).1).2
      (Context.drop { udev := h }
        (Context.clone { udev := h } (Context.new h s).1).1)).released
          = s.released + 1 ∧
    (Context.drop (Context.clone { udev := h } (Context.new h s).1).2
      (Context.clone { udev := h } (Context.new h s).1).1).released
        = s.released ∧
    (Context.drop { udev := h }
      (Context.drop (Context.clone { udev := h } (Context.new h s).1).2
        (Context.clone { udev := h } (Context.new h s).1).1)).released
          = s.released + 1 := by
  simp [Context.new, udev_new, try_alloc, hh, Context.clone, udev_ref,
    Context.drop, udev_unref, Context.as_ptr, Except.map]

/-- Claim C6 witness: the clone-independence conclusion evaluated at handle
4 and the fresh instrumented state: dropping both owners in the first order
releases the resource exactly once. -/
theorem clone_independence_witness :
    (Context.drop (Context.clone { udev := 4 } (Context.new 4 {}).1).2
      (Context.drop { udev := 4 }
        (Context.clone { udev := 4 } (Context.new 4 {}).1).1)).released = 1 :=
  (clone_independence 4 {} (by decide)).2.2.2.2.1

/-- Claim C8: only construction is fallible.  Context.new returns an error
precisely when the subsystem returns null, while clone, drop and as_ptr are
total: each always produces a result and their result types carry no error
case. -/
theorem only_construct_fallible (r : RawPtr) (s : FfiState) (c : Context) :
    ((Context.new r s).2 = Except.error Error.AllocationError ↔ r = 0) ∧
    (∃ s2 c2, Context.clone c s = (s2, c2)) ∧
    (∃ s2, Context.drop c s = s2) ∧
    (∃ p, Context.as_ptr c s = (s, p)) := by
  refine ⟨?_, ⟨_, _, rfl⟩, ⟨_, rfl⟩, ⟨_, rfl⟩⟩
  by_cases hr : r = 0 <;>
    simp [Context.new, udev_new, try_alloc, hr, Except.map]

/-- Claim C8 witness: a concrete failed construction produced by the
equivalence of failure with a null subsystem result. -/
theorem only_construct_fallible_witness :
    (Context.new 0 { newCalls := 2 }).2 = Except.error Error.AllocationError :=
  ((only_construct_fallible 0 { newCalls := 2 } { udev := 1 }).1).mpr rfl

/-- Claim C9: non-null handle invariant and safety of the unchecked wraps.
A successful construction yields a Context storing exactly the non-null
subsystem pointer (the unchecked wrap in new runs only after the null test
has excluded null); the pointer handed to the unchecked wrap in clone is the
pointer returned by the increment call, which equals the stored pointer of
the live original; and every owner live in any trace descending from a
successful construction holds a non-null handle. -/
theorem nonnull_handle_invariant (r h : RawPtr) (s : FfiState) (c : Context)
    (ops : List Op) (hok : (Context.new r s).2 = Except.ok c) (hh : h ≠ 0) :
    c.udev = r ∧ r ≠ 0 ∧
    (∀ t : FfiState, ((Context.clone c t).2).udev = c.udev) ∧
    ∀ d ∈ (run (initState h) ops).live, d.udev ≠ 0 := by
  obtain ⟨u⟩ := c
  by_cases hr0 : r = 0
  · rw [hr0] at hok
    simp [Context.new, udev_new, try_alloc, Except.map] at hok
  · simp [Context.new, udev_new, try_alloc, hr0, Except.map,
      Context.mk.injEq] at hok
    refine ⟨by show u = r; simp [hok], hr0, fun t => rfl, ?_⟩
    intro d hd
    have hdh := (inv_run h (initState h) ops (inv_initState h)).2.2.2.2 d hd
    rw [hdh]
    exact hh

/-- Claim C9 witness: the invariant evaluated at a concrete successful
construction with handle 6 and a concrete one-clone trace. -/
theorem nonnull_handle_invariant_witness :
    ({ udev := 6 } : Context).udev = 6 ∧ (6 : RawPtr) ≠ 0 ∧
    (∀ t : FfiState,
      ((Context.clone { udev := 6 } t).2).udev
        = ({ udev := 6 } : Context).udev) ∧
    ∀ d ∈ (run (initState 6) [Op.clone 0]).live, d.udev ≠ 0 :=
  nonnull_handle_invariant 6 6 {} { udev := 6 } [Op.clone 0] rfl (by decide)

/-- Claim C10: frame property of the borrowing operations.  Duplicating any
owner leaves each already-live owner exactly as it was (in particular the
stored handle of the original is unchanged), reading the raw handle returns
the stored handle without touching the subsystem state or the value, and
along any trace from one construction every live owner still stores its
construction-time handle: only construction chooses a handle and no
operation rebinds it. -/
theorem clone_as_ptr_frame (st : ExecState) (i j : Nat) (h : RawPtr)
    (ops : List Op) (hj : j < st.live.length) (hh : h ≠ 0) :
    (step st (Op.clone i)).live[j]? = st.live[j]? ∧
    (∀ (c : Context) (s : FfiState), Context.as_ptr c s = (s, c.udev)) ∧
    ∀ d ∈ (run (initState h) ops).live, d.udev = h := by
  refine ⟨?_, fun c s => rfl, ?_⟩
  · cases hgi : st.live[i]? with
    | none => simp [step, hgi]
    | some c =>
      simp only [step, hgi]
      exact List.getElem?_append_left hj
  · exact (inv_run h (initState h) ops (inv_initState h)).2.2.2.2

/-- Claim C10 witness: the frame property evaluated at a concrete one-owner
state, concrete indices and a concrete one-drop trace. -/
theorem clone_as_ptr_frame_witness :
    (step { ffi := {}, live := [{ udev := 9 }] } (Op.clone 0)).live[0]? =
      ({ ffi := {}, live := [{ udev := 9 }] } : ExecState).live[0]? ∧
    (∀ (c : Context) (s : FfiState), Context.as_ptr c s = (s, c.udev)) ∧
    ∀ d ∈ (run (initState 9) [Op.drop 0]).live, d.udev = 9 :=
  clone_as_ptr_frame { ffi := {}, live := [{ udev := 9 }] } 0 0 9 [Op.drop 0]
    (by decide) (by decide)

/-- Source fact (context.rs line 23): the code declares
unsafe impl Send for Context, so the Rust compiler accepts transferring a
Context value to another thread. -/
def contextDeclaredSend : Bool := true

/-- Source fact (context.rs line 24): the code declares
unsafe impl Sync for Context, so the Rust compiler accepts sharing a
reference to a Context between threads. -/
def contextDeclaredSync : Bool := true

/-- A cross-thread transfer of a value is rejected by the Rust type system
iff the type is not Send. -/
def crossThreadTransferRejected : Bool := !contextDeclaredSend

/-- Concurrent cross-thread sharing of a value is rejected by the Rust type
system iff the type is not Sync. -/
def crossThreadSharingRejected : Bool := !contextDeclaredSync

/-- Claim C1: the claim states that cross-thread transfer and concurrent
sharing of a Context are rejected by the type system; the code instead
declares Send and Sync for Context (contradicting its own documentation
comment, which says the type is neither), so neither transfer nor sharing
is rejected. -/
theorem context_send_sync_not_rejected :
    crossThreadTransferRejected = false ∧
    crossThreadSharingRejected = false := by
  decide
